import Mathlib

/-!
Shallow embedding of the token-based authentication subsystem of the
student-management-system backend (src/backend/src/middleware/auth.rs,
together with src/backend/src/config.rs, src/backend/src/error.rs and the
role conversion in src/backend/src/model/models/user.rs).

Modelling conventions:
* Unix timestamps (u64 seconds in the source) are Nat; no timestamp
  arithmetic in the claims under study can overflow 64 bits, and Rust u64
  subtraction in the source is either guarded (now - claims.exp occurs under
  claims.exp < now) or, in the jsonwebtoken library, saturating, which Nat
  truncated subtraction matches.
* The JWT wire format is idealized: a token string is either a structurally
  valid JWT carrying its Claims together with the secret it was signed with
  (an idealized MAC: verification compares the recorded key with the
  configured secret), or unparseable garbage.  Base64/HMAC byte-level
  encoding is not modelled; it is injective and tamper-evident, which is
  exactly what this idealization captures.
* The jsonwebtoken crate (v8/v9, as pinned by the axum 0.7 style middleware
  signatures in the source) checks expiry in Validation::default() with a
  default leeway of 60 seconds: a token is rejected as ExpiredSignature
  exactly when claims.exp < now - leeway.  This leeway is embedded
  faithfully; it is load-bearing for the expiry-boundary claims.
* Header values are lists of characters; Rust str::trim removes Unicode
  whitespace, modelled here by Char.isWhitespace (space, tab, CR, LF),
  which agrees on all inputs considered.
* The middleware reads the Authorization header as
  headers.get(..).and_then(to_str().ok()); the model takes the resulting
  Option directly.  The downstream handler invocation next.run is modelled
  by the GateOutcome.forwarded constructor; GateOutcome.rejected means the
  downstream handler is never invoked.
* The wire-level deserialization from an extracted header substring to a
  token (base64 decoding inside jsonwebtoken) is a parameter
  wire : List Char -> TokenStr of the middleware model.
-/

/-- Error kinds, from AppErrorType in src/backend/src/error.rs. -/
inductive AppErrorType
  | Db
  | Notfound
  | Duplicate
  | Crypt
  | IncorrectLogin
  | Forbidden
  | Time
  | Internal
deriving DecidableEq, Repr

/-- AppError from src/backend/src/error.rs: the Rust struct stores an opaque
boxed error cause plus a type tag; AppError::new_message stores a message
string as the cause.  The model keeps the rendered message and the tag. -/
structure AppError where
  message : String
  types : AppErrorType
deriving DecidableEq, Repr

/-- AppError::new_message from src/backend/src/error.rs. -/
def AppError.new_message (msg : String) (types : AppErrorType) : AppError :=
  { message := msg, types := types }

/-- JWT claims payload, from Claims in src/backend/src/middleware/auth.rs. -/
structure Claims where
  sub : String
  username : String
  role : String
  exp : Nat
  iat : Nat
deriving DecidableEq, Repr

/-- The jwt part of Config from src/backend/src/config.rs: secret is the
signing key, expiration is the token lifetime in minutes (u64). -/
structure JwtConfig where
  secret : String
  expiration : Nat
deriving DecidableEq, Repr

/-- The fields of the Rust User (src/backend/src/model/models/user.rs) that
the auth layer reads: generate_token uses user.id.to_string(),
user.username and user.role; id is modelled by its string rendition. -/
structure User where
  id : String
  username : String
  role : String
deriving DecidableEq, Repr

/-- UserRole from src/backend/src/model/models/user.rs. -/
inductive UserRole
  | Teacher
  | Student
deriving DecidableEq, Repr

/-- Rust char lowercasing restricted to ASCII, where it agrees with the
Unicode full lowercasing that str::to_lowercase performs; all role strings
under study are ASCII. -/
def lowerChar (c : Char) : Char :=
  if 'A' ≤ c ∧ c ≤ 'Z' then Char.ofNat (c.toNat + 32) else c

/-- str::to_lowercase, on the character list underlying the string. -/
def toLowerStr (s : String) : String :=
  ⟨s.data.map lowerChar⟩

/-- impl From of String for UserRole in src/backend/src/model/models/user.rs:
matches on s.to_lowercase(); every unrecognized value falls to Student. -/
def UserRole.fromString (s : String) : UserRole :=
  if toLowerStr s = "teacher" then UserRole.Teacher
  else if toLowerStr s = "student" then UserRole.Student
  else UserRole.Student

/-- Idealized JWT wire string: either a structurally valid JWT carrying its
claims and the key it was signed with, or unparseable garbage. -/
inductive TokenStr
  | jwt (claims : Claims) (key : String)
  | garbage (raw : List Char)
deriving DecidableEq, Repr

/-- The fields of jsonwebtoken Validation that the source touches:
Validation::default() has validate_exp = true and leeway = 60 seconds
(jsonwebtoken v8/v9); verify_token_for_refresh sets validate_exp = false. -/
structure JwtValidation where
  validate_exp : Bool
  leeway : Nat
deriving DecidableEq, Repr

/-- jsonwebtoken Validation::default(): validate expiry, 60 second leeway. -/
def JwtValidation.default : JwtValidation :=
  { validate_exp := true, leeway := 60 }

/-- Error kinds of jsonwebtoken decode that the source discriminates on. -/
inductive JwtErrorKind
  | ExpiredSignature
  | InvalidSignature
  | InvalidToken
deriving DecidableEq, Repr

/-- jsonwebtoken decode: verify the signature, then (when validate_exp)
reject as expired exactly when claims.exp < now - leeway (u64 saturating
subtraction in the library, matched by Nat truncated subtraction). -/
def jwtDecode (v : JwtValidation) (secret : String) (now : Nat) :
    TokenStr → Except JwtErrorKind Claims
  | TokenStr.garbage _ => Except.error JwtErrorKind.InvalidToken
  | TokenStr.jwt c key =>
      if key = secret then
        if v.validate_exp = true ∧ c.exp < now - v.leeway then
          Except.error JwtErrorKind.ExpiredSignature
        else Except.ok c
      else Except.error JwtErrorKind.InvalidSignature

/-- The Claims minted by generate_token and refresh_token in
src/backend/src/middleware/auth.rs: iat = now,
exp = (now + Duration::minutes(config.jwt.expiration)).unix_timestamp(),
i.e. now + 60 * expiration seconds. -/
def mintClaims (cfg : JwtConfig) (now : Nat) (sub username role : String) : Claims :=
  { sub := sub, username := username, role := role
    exp := now + 60 * cfg.expiration, iat := now }

/-- generate_token from src/backend/src/middleware/auth.rs: builds Claims
from the user verbatim (sub = id.to_string(), username, role cloned with no
validation) and signs with the configured secret.  The only failure in the
source is a signing fault inside jsonwebtoken encode, which cannot occur in
the idealized codec, so the model always returns ok. -/
def generate_token (cfg : JwtConfig) (now : Nat) (user : User) :
    Except AppError TokenStr :=
  Except.ok (TokenStr.jwt (mintClaims cfg now user.id user.username user.role) cfg.secret)

/-- verify_token from src/backend/src/middleware/auth.rs: decode with
Validation::default(), mapping ExpiredSignature and InvalidSignature to
Forbidden AppErrors with fixed messages and any other decode fault to a
Crypt AppError (whose message renders the library error; a fixed
placeholder here, no claim depends on it). -/
def verify_token (cfg : JwtConfig) (now : Nat) (t : TokenStr) :
    Except AppError Claims :=
  match jwtDecode JwtValidation.default cfg.secret now t with
  | Except.ok c => Except.ok c
  | Except.error JwtErrorKind.ExpiredSignature =>
      Except.error (AppError.new_message "令牌已过期" AppErrorType.Forbidden)
  | Except.error JwtErrorKind.InvalidSignature =>
      Except.error (AppError.new_message "无效的令牌签名" AppErrorType.Forbidden)
  | Except.error JwtErrorKind.InvalidToken =>
      Except.error (AppError.new_message "JWT解码错误" AppErrorType.Crypt)

/-- verify_token_for_refresh from src/backend/src/middleware/auth.rs:
decode with validate_exp = false (so ExpiredSignature cannot occur), then
reject when claims.exp < now and now - claims.exp > 30 * 60, i.e. the token
expired more than 30 minutes ago. -/
def verify_token_for_refresh (cfg : JwtConfig) (now : Nat) (t : TokenStr) :
    Except AppError Claims :=
  match jwtDecode { validate_exp := false, leeway := 60 } cfg.secret now t with
  | Except.ok c =>
      if c.exp < now ∧ 30 * 60 < now - c.exp then
        Except.error (AppError.new_message "令牌已过期且超出刷新窗口" AppErrorType.Forbidden)
      else Except.ok c
  | Except.error JwtErrorKind.InvalidSignature =>
      Except.error (AppError.new_message "无效的令牌签名" AppErrorType.Forbidden)
  | Except.error _ =>
      Except.error (AppError.new_message "JWT解码错误" AppErrorType.Crypt)

/-- refresh_token from src/backend/src/middleware/auth.rs: validate via
verify_token_for_refresh, then mint a new token carrying the old sub,
username and role with fresh iat and exp, signed with the same secret. -/
def refresh_token (cfg : JwtConfig) (now : Nat) (old : TokenStr) :
    Except AppError TokenStr :=
  match verify_token_for_refresh cfg now old with
  | Except.error e => Except.error e
  | Except.ok c =>
      Except.ok (TokenStr.jwt (mintClaims cfg now c.sub c.username c.role) cfg.secret)

/-- Rust str::trim_start_matches on character lists, fuel-structured so that
it reduces definitionally: while the pattern is a prefix, drop it.  The
caller passes fuel at least the length of the subject list, which suffices
for any nonempty pattern. -/
def trimStartAux (p : List Char) : Nat → List Char → List Char
  | 0, s => s
  | fuel + 1, s =>
      if p.isPrefixOf s then trimStartAux p fuel (s.drop p.length) else s

/-- Rust str::trim_start_matches(p): repeatedly removes every leading
occurrence of the pattern p. -/
def trimStartMatchesList (p s : List Char) : List Char :=
  trimStartAux p s.length s

/-- Rust str::trim: remove leading and trailing whitespace. -/
def trimList (s : List Char) : List Char :=
  ((s.dropWhile Char.isWhitespace).reverse.dropWhile Char.isWhitespace).reverse

/-- The literal pattern used by extract_token_from_header. -/
def bearerL : List Char := "Bearer ".toList

/-- extract_token_from_header from src/backend/src/middleware/auth.rs:
if the header starts with the literal Bearer-space prefix, return
auth_header.trim_start_matches with that pattern, then trimmed; else None. -/
def extract_token_from_header (auth_header : List Char) : Option (List Char) :=
  if bearerL.isPrefixOf auth_header then
    some (trimList (trimStartMatchesList bearerL auth_header))
  else none

/-- Outcome of a middleware run: either the request is forwarded to the
downstream handler with the decoded Claims attached (next.run invoked), or
it is short-circuited with an error response and the downstream handler is
never invoked. -/
inductive GateOutcome
  | forwarded (claims : Claims)
  | rejected (err : AppError)
deriving DecidableEq, Repr

/-- auth_middleware from src/backend/src/middleware/auth.rs.  authHeader is
the result of reading the Authorization header (None when absent or not
representable as a str); wire is the deserialization of the extracted
substring into a token. -/
def auth_middleware (cfg : JwtConfig) (now : Nat) (wire : List Char → TokenStr)
    (authHeader : Option (List Char)) : GateOutcome :=
  match authHeader with
  | none => GateOutcome.rejected (AppError.new_message "需要认证" AppErrorType.Forbidden)
  | some h =>
      match extract_token_from_header h with
      | none =>
          GateOutcome.rejected (AppError.new_message "无效的认证头格式" AppErrorType.Forbidden)
      | some w =>
          match verify_token cfg now (wire w) with
          | Except.ok claims => GateOutcome.forwarded claims
          | Except.error e => GateOutcome.rejected e

/-- admin_middleware from src/backend/src/middleware/auth.rs: same
extraction and verification as auth_middleware, then the request proceeds
only when claims.role is the string admin or the string teacher; otherwise
a distinct insufficient-privilege error. -/
def admin_middleware (cfg : JwtConfig) (now : Nat) (wire : List Char → TokenStr)
    (authHeader : Option (List Char)) : GateOutcome :=
  match authHeader with
  | none => GateOutcome.rejected (AppError.new_message "需要认证" AppErrorType.Forbidden)
  | some h =>
      match extract_token_from_header h with
      | none =>
          GateOutcome.rejected (AppError.new_message "无效的认证头格式" AppErrorType.Forbidden)
      | some w =>
          match verify_token cfg now (wire w) with
          | Except.ok claims =>
              if claims.role = "admin" ∨ claims.role = "teacher" then
                GateOutcome.forwarded claims
              else
                GateOutcome.rejected (AppError.new_message "需要管理员权限" AppErrorType.Forbidden)
          | Except.error e => GateOutcome.rejected e

/-- n-fold repetition of a character-list pattern. -/
def repList (p : List Char) : Nat → List Char
  | 0 => []
  | n + 1 => p ++ repList p n

/-- Concrete configuration: secret s, lifetime 1 minute. -/
def cfgEx : JwtConfig := { secret := "s", expiration := 1 }

/-- Concrete configuration with a zero-minute lifetime. -/
def cfg0 : JwtConfig := { secret := "s", expiration := 0 }

/-- Concrete user with the known role student. -/
def uEx : User := { id := "u", username := "n", role := "student" }

/-- Concrete user whose role string is not any known role tag. -/
def userRoot : User := { id := "u1", username := "name1", role := "superuser" }

/-- The claims generate_token mints for uEx under cfgEx at time 0. -/
def claimsEx : Claims :=
  { sub := "u", username := "n", role := "student", exp := 60, iat := 0 }

/-- Fresh admin claims for exercising the role gate. -/
def claimsAdmin : Claims :=
  { sub := "a", username := "adm", role := "admin", exp := 60, iat := 0 }

theorem isPrefixOf_self_append (p s : List Char) : p.isPrefixOf (p ++ s) = true := by
  induction p with
  | nil => simp [List.isPrefixOf]
  | cons a as ih => simp [List.isPrefixOf, ih]

theorem trimStartAux_repList (p t : List Char) (hp : p ≠ [])
    (ht : ¬ p.isPrefixOf t = true) :
    ∀ n fuel, (repList p n ++ t).length ≤ fuel →
      trimStartAux p fuel (repList p n ++ t) = t := by
  intro n
  induction n with
  | zero =>
    intro fuel _
    simp only [repList, List.nil_append]
    cases fuel with
    | zero => rfl
    | succ f => simp [trimStartAux, ht]
  | succ m ih =>
    intro fuel hf
    have hlen : 1 ≤ p.length := by
      cases p with
      | nil => exact absurd rfl hp
      | cons a as => simp
    simp only [repList, List.append_assoc] at hf ⊢
    cases fuel with
    | zero =>
      exfalso
      simp only [List.length_append] at hf
      omega
    | succ f =>
      rw [trimStartAux, if_pos (isPrefixOf_self_append p (repList p m ++ t)),
        List.drop_left]
      apply ih
      simp [List.length_append] at hf ⊢
      omega

theorem verify_token_jwt (cfg : JwtConfig) (now : Nat) (c : Claims) (k : String) :
    verify_token cfg now (TokenStr.jwt c k) =
      (if k = cfg.secret then
        (if now ≤ c.exp + 60 then Except.ok c
         else Except.error (AppError.new_message "令牌已过期" AppErrorType.Forbidden))
       else Except.error (AppError.new_message "无效的令牌签名" AppErrorType.Forbidden)) := by
  by_cases hk : k = cfg.secret
  · by_cases hb : now ≤ c.exp + 60
    · have he : ¬ c.exp < now - 60 := by omega
      simp [verify_token, jwtDecode, JwtValidation.default, hk, hb, he]
    · have he : c.exp < now - 60 := by omega
      simp [verify_token, jwtDecode, JwtValidation.default, hk, hb, he]
  · simp [verify_token, jwtDecode, JwtValidation.default, hk]

theorem refresh_token_jwt (cfg : JwtConfig) (now : Nat) (c : Claims) (k : String) :
    refresh_token cfg now (TokenStr.jwt c k) =
      (if k = cfg.secret then
        (if c.exp + 30 * 60 < now then
          Except.error (AppError.new_message "令牌已过期且超出刷新窗口" AppErrorType.Forbidden)
         else
          Except.ok (TokenStr.jwt (mintClaims cfg now c.sub c.username c.role) cfg.secret))
       else Except.error (AppError.new_message "无效的令牌签名" AppErrorType.Forbidden)) := by
  by_cases hk : k = cfg.secret
  · by_cases hd : c.exp + 30 * 60 < now
    · have hw : c.exp < now ∧ 30 * 60 < now - c.exp := ⟨by omega, by omega⟩
      simp [refresh_token, verify_token_for_refresh, jwtDecode, hk, hd, hw]
    · have hw : ¬ (c.exp < now ∧ 30 * 60 < now - c.exp) := by omega
      simp [refresh_token, verify_token_for_refresh, jwtDecode, hk, hd, hw]
  · simp [refresh_token, verify_token_for_refresh, jwtDecode, hk]

theorem extract_token_repList (n : Nat) (t : List Char) (hn : 1 ≤ n)
    (ht : ¬ bearerL.isPrefixOf t = true) :
    extract_token_from_header (repList bearerL n ++ t) = some (trimList t) := by
  obtain ⟨m, rfl⟩ : ∃ m, n = m + 1 := ⟨n - 1, by omega⟩
  have hpre : bearerL.isPrefixOf (repList bearerL (m + 1) ++ t) = true := by
    simp only [repList, List.append_assoc]
    exact isPrefixOf_self_append _ _
  unfold extract_token_from_header trimStartMatchesList
  rw [if_pos hpre, trimStartAux_repList bearerL t (by decide) ht (m + 1) _ (le_refl _)]

theorem refresh_ok_shape (cfg : JwtConfig) (now : Nat) (c : Claims) (k : String)
    (t' : TokenStr)
    (hok : refresh_token cfg now (TokenStr.jwt c k) = Except.ok t') :
    t' = TokenStr.jwt (mintClaims cfg now c.sub c.username c.role) cfg.secret := by
  rw [refresh_token_jwt] at hok
  by_cases hk : k = cfg.secret
  · rw [if_pos hk] at hok
    by_cases hd : c.exp + 30 * 60 < now
    · rw [if_pos hd] at hok
      exact absurd hok (by simp)
    · rw [if_neg hd] at hok
      simpa using hok.symm
  · rw [if_neg hk] at hok
    exact absurd hok (by simp)

/-- Claim C1, counterexample: a token issued under cfgEx at time 0 with
lifetime L = 1 minute has exp = 60; at now = iat + L + 1 s = 61 the claim
demands that verify return the Expired error, but verify_token succeeds,
because jsonwebtoken Validation::default() carries a 60-second expiry
leeway (the token is in state InGrace yet accepted). -/
theorem C1_counterexample :
    generate_token cfgEx 0 uEx = Except.ok (TokenStr.jwt claimsEx "s") ∧
    (61 : Nat) = claimsEx.iat + 60 * cfgEx.expiration + 1 ∧
    verify_token cfgEx 61 (TokenStr.jwt claimsEx "s") = Except.ok claimsEx :=
  ⟨rfl, rfl, rfl⟩

/-- Claim C1 (amended): for every token whose signature verifies,
verify_token succeeds exactly when now ≤ expires_at + 60 s (the
jsonwebtoken default leeway), and otherwise returns the Expired error.  In
particular it succeeds at now = issued_at + L - 1 s, still succeeds up to
60 s past expiry, and returns Expired at any later instant (so InGrace
tokens older than the leeway and all Dead tokens yield Expired). -/
theorem C1_amended (cfg : JwtConfig) (now : Nat) (c : Claims) :
    verify_token cfg now (TokenStr.jwt c cfg.secret) =
      (if now ≤ c.exp + 60 then Except.ok c
       else Except.error (AppError.new_message "令牌已过期" AppErrorType.Forbidden)) := by
  rw [verify_token_jwt, if_pos rfl]

/-- Claim C2, counterexample: at now = expires_at + grace_window exactly
(claimsEx.exp = 60, grace 1800 s, now = 1860) the claim demands
RefreshWindowExceeded, but refresh_token succeeds: the source rejects only
when now - exp is strictly greater than 30 * 60. -/
theorem C2_counterexample :
    refresh_token cfgEx 1860 (TokenStr.jwt claimsEx "s") =
      Except.ok (TokenStr.jwt
        { sub := "u", username := "n", role := "student", exp := 1920, iat := 1860 } "s") ∧
    (1860 : Nat) = claimsEx.exp + 30 * 60 :=
  ⟨rfl, rfl⟩

/-- Claim C2 (amended): for a signature-valid token, if expires_at < now ≤
expires_at + grace_window (grace_window = 30 minutes, boundary now
inclusive) then refresh succeeds and the new token's expires_at is strictly
greater than the old one's; refresh returns the RefreshWindowExceeded error
exactly when now > expires_at + grace_window (strictly). -/
theorem C2_amended (cfg : JwtConfig) (now : Nat) (c : Claims) :
    (c.exp < now → now ≤ c.exp + 30 * 60 →
      refresh_token cfg now (TokenStr.jwt c cfg.secret) =
        Except.ok (TokenStr.jwt (mintClaims cfg now c.sub c.username c.role) cfg.secret) ∧
      c.exp < (mintClaims cfg now c.sub c.username c.role).exp) ∧
    (c.exp + 30 * 60 < now →
      refresh_token cfg now (TokenStr.jwt c cfg.secret) =
        Except.error (AppError.new_message "令牌已过期且超出刷新窗口" AppErrorType.Forbidden)) := by
  constructor
  · intro h1 h2
    constructor
    · rw [refresh_token_jwt, if_pos rfl, if_neg (by omega)]
    · simp only [mintClaims]
      omega
  · intro h
    rw [refresh_token_jwt, if_pos rfl, if_pos h]

/-- Witness for C2_amended: a token with exp = 60 refreshed at now = 100
(inside the grace window) succeeds, and refreshed at now = 2000 (more than
30 minutes past expiry) yields the refresh-window-exceeded error. -/
theorem C2_witness :
    refresh_token cfgEx 100 (TokenStr.jwt claimsEx "s") =
      Except.ok (TokenStr.jwt (mintClaims cfgEx 100 "u" "n" "student") "s") ∧
    refresh_token cfgEx 2000 (TokenStr.jwt claimsEx "s") =
      Except.error (AppError.new_message "令牌已过期且超出刷新窗口" AppErrorType.Forbidden) :=
  ⟨((C2_amended cfgEx 100 claimsEx).1 (by decide) (by decide)).1,
   (C2_amended cfgEx 2000 claimsEx).2 (by decide)⟩

/-- Claim C9: verify_token is deterministic: at a fixed now and config, two
evaluations on the same token are identical results (same Claims on
success, same error on failure).  In the embedding verify_token is a pure
function of (config, now, token), mirroring the source, whose only ambient
inputs are the immutable global config and the clock. -/
theorem C9_verify_deterministic (cfg : JwtConfig) (now : Nat) (t : TokenStr)
    (r1 r2 : Except AppError Claims)
    (h1 : r1 = verify_token cfg now t) (h2 : r2 = verify_token cfg now t) :
    r1 = r2 :=
  h1.trans h2.symm

/-- Witness for C9_verify_deterministic at a concrete token and time. -/
theorem C9_witness :
    verify_token cfgEx 0 (TokenStr.jwt claimsEx "s") =
      verify_token cfgEx 0 (TokenStr.jwt claimsEx "s") :=
  C9_verify_deterministic cfgEx 0 (TokenStr.jwt claimsEx "s") _ _ rfl rfl

/-- Claim C3: for a request carrying a Fresh, signature-valid token, the
role-restricted gate admin_middleware forwards to the downstream handler
(GateOutcome.forwarded, i.e. next.run) exactly when claims.role is the
string admin or the string teacher; any other role value is rejected with
the insufficient-privilege error, which is a value distinct from the
not-authenticated, Expired and InvalidSignature errors (all four share the
Forbidden kind and HTTP status but carry pairwise distinct messages), and a
rejected outcome never invokes the downstream handler by construction. -/
theorem C3_admin_gate (cfg : JwtConfig) (now : Nat) (wire : List Char → TokenStr)
    (h : List Char) (w : List Char) (c : Claims)
    (hex : extract_token_from_header h = some w)
    (hwire : wire w = TokenStr.jwt c cfg.secret)
    (hfresh : now < c.exp) :
    admin_middleware cfg now wire (some h) =
      (if c.role = "admin" ∨ c.role = "teacher" then GateOutcome.forwarded c
       else GateOutcome.rejected (AppError.new_message "需要管理员权限" AppErrorType.Forbidden)) ∧
    (AppError.new_message "需要管理员权限" AppErrorType.Forbidden ≠
      AppError.new_message "需要认证" AppErrorType.Forbidden) ∧
    (AppError.new_message "需要管理员权限" AppErrorType.Forbidden ≠
      AppError.new_message "令牌已过期" AppErrorType.Forbidden) ∧
    (AppError.new_message "需要管理员权限" AppErrorType.Forbidden ≠
      AppError.new_message "无效的令牌签名" AppErrorType.Forbidden) := by
  refine ⟨?_, by decide, by decide, by decide⟩
  have hv : verify_token cfg now (wire w) = Except.ok c := by
    rw [hwire, verify_token_jwt, if_pos rfl, if_pos (by omega)]
  simp only [admin_middleware, hex, hv]

/-- Witness for C3_admin_gate: a Fresh admin token is forwarded, and a
Fresh student token is rejected with the insufficient-privilege error. -/
theorem C3_witness :
    admin_middleware cfgEx 0 (fun _ => TokenStr.jwt claimsAdmin "s")
      (some ("Bearer x".toList)) = GateOutcome.forwarded claimsAdmin ∧
    admin_middleware cfgEx 0 (fun _ => TokenStr.jwt claimsEx "s")
      (some ("Bearer x".toList)) =
      GateOutcome.rejected (AppError.new_message "需要管理员权限" AppErrorType.Forbidden) := by
  constructor
  · exact ((C3_admin_gate cfgEx 0 (fun _ => TokenStr.jwt claimsAdmin "s")
      ("Bearer x".toList) ("x".toList) claimsAdmin (by decide) rfl (by decide)).1).trans
      (if_pos (Or.inl rfl))
  · exact ((C3_admin_gate cfgEx 0 (fun _ => TokenStr.jwt claimsEx "s")
      ("Bearer x".toList) ("x".toList) claimsEx (by decide) rfl (by decide)).1).trans
      (if_neg (by decide))

/-- Claim C4: for every identity and every now within the configured
lifetime of issuance, verify(issue(identity)) succeeds and the decoded
Claims carry the identity's id as subject and the identity's role. -/
theorem C4_issue_then_verify (cfg : JwtConfig) (t0 now : Nat) (u : User)
    (tok : TokenStr)
    (hiss : generate_token cfg t0 u = Except.ok tok)
    (_h1 : t0 ≤ now) (h2 : now < t0 + 60 * cfg.expiration) :
    ∃ c, verify_token cfg now tok = Except.ok c ∧ c.sub = u.id ∧ c.role = u.role := by
  have htok : tok = TokenStr.jwt (mintClaims cfg t0 u.id u.username u.role) cfg.secret := by
    simpa [generate_token] using hiss.symm
  subst htok
  refine ⟨mintClaims cfg t0 u.id u.username u.role, ?_, rfl, rfl⟩
  have hb : now ≤ (mintClaims cfg t0 u.id u.username u.role).exp + 60 := by
    simp only [mintClaims]
    omega
  rw [verify_token_jwt, if_pos rfl, if_pos hb]

/-- Witness for C4_issue_then_verify: issue for uEx at time 0 under cfgEx,
verify at time 30 (inside the 60 s lifetime). -/
theorem C4_witness :
    ∃ c, verify_token cfgEx 30
        (TokenStr.jwt (mintClaims cfgEx 0 "u" "n" "student") "s") =
      Except.ok c ∧ c.sub = uEx.id ∧ c.role = uEx.role :=
  C4_issue_then_verify cfgEx 0 30 uEx _ rfl (by decide) (by decide)

/-- Claim C5: whenever refresh succeeds on a token with claims c, the new
token is signed with the configured secret and its Claims carry exactly
c.sub, c.username and c.role (nothing re-derived, nothing escalated), while
iat = now and exp = now + 60 * configured lifetime are freshly computed. -/
theorem C5_refresh_preserves_identity (cfg : JwtConfig) (now : Nat) (c : Claims)
    (k : String) (t' : TokenStr)
    (hok : refresh_token cfg now (TokenStr.jwt c k) = Except.ok t') :
    t' = TokenStr.jwt
      { sub := c.sub, username := c.username, role := c.role
        exp := now + 60 * cfg.expiration, iat := now } cfg.secret :=
  refresh_ok_shape cfg now c k t' hok

/-- Witness for C5_refresh_preserves_identity: refreshing the claimsEx token
at now = 100 yields exactly the old identity with fresh timestamps. -/
theorem C5_witness :
    TokenStr.jwt
        { sub := "u", username := "n", role := "student", exp := 160, iat := 100 } "s" =
      TokenStr.jwt
        { sub := claimsEx.sub, username := claimsEx.username, role := claimsEx.role
          exp := 100 + 60 * cfgEx.expiration, iat := 100 } cfgEx.secret :=
  C5_refresh_preserves_identity cfgEx 100 claimsEx "s" _ rfl

/-- Claim C6, counterexample: for the header value Bearer Bearer tok, the
token after the (first) Bearer-space prefix, whitespace-trimmed, would be
the string Bearer tok, but extract_token_from_header returns tok: the
source strips every leading repetition of the pattern, so the claim's
general sentence fails at this input. -/
theorem C6_counterexample :
    extract_token_from_header ("Bearer Bearer tok".toList) = some ("tok".toList) ∧
    extract_token_from_header ("Bearer Bearer tok".toList) ≠
      some (trimList ("Bearer tok".toList)) := by
  decide

/-- Claim C6 (amended): for a header value Bearer-space followed by a token
that does not itself begin with the Bearer-space pattern, the token after
the prefix is returned with surrounding whitespace trimmed (for tokens that
do start with the pattern, every leading repetition is stripped first); the
example header extracts abc.def.ghi; a header without the Bearer-space
prefix is rejected by the gate with the malformed-header error, and an
absent Authorization header with the distinct authentication-required
error. -/
theorem C6_amended (t : List Char) (cfg : JwtConfig) (now : Nat)
    (wire : List Char → TokenStr)
    (ht : ¬ bearerL.isPrefixOf t = true) :
    extract_token_from_header (bearerL ++ t) = some (trimList t) ∧
    extract_token_from_header ("Bearer abc.def.ghi".toList) =
      some ("abc.def.ghi".toList) ∧
    auth_middleware cfg now wire (some ("Token xyz".toList)) =
      GateOutcome.rejected (AppError.new_message "无效的认证头格式" AppErrorType.Forbidden) ∧
    auth_middleware cfg now wire none =
      GateOutcome.rejected (AppError.new_message "需要认证" AppErrorType.Forbidden) ∧
    AppError.new_message "无效的认证头格式" AppErrorType.Forbidden ≠
      AppError.new_message "需要认证" AppErrorType.Forbidden := by
  refine ⟨?_, by decide, ?_, rfl, by decide⟩
  · have h1 := extract_token_repList 1 t (by decide) ht
    simpa [repList] using h1
  · have hx : extract_token_from_header ("Token xyz".toList) = none := by decide
    simp only [auth_middleware, hx]

/-- Witness for C6_amended at the token abc, which does not start with the
Bearer-space pattern. -/
theorem C6_witness :
    extract_token_from_header (bearerL ++ "abc".toList) = some (trimList "abc".toList) :=
  (C6_amended "abc".toList cfgEx 0 (fun _ => TokenStr.garbage []) (by decide)).1

/-- Claim C7, counterexample: generate_token embeds the identity's role
string verbatim with no validation: for a user whose role is the unknown
string superuser, issuance succeeds and the minted Claims carry superuser,
which is none of the known role tags — nothing is rejected or coerced. -/
theorem C7_counterexample :
    generate_token cfgEx 0 userRoot =
      Except.ok (TokenStr.jwt
        { sub := "u1", username := "name1", role := "superuser", exp := 60, iat := 0 } "s") ∧
    ¬ ("superuser" = "student" ∨ "superuser" = "teacher" ∨ "superuser" = "admin") :=
  ⟨rfl, by decide⟩

/-- Claim C7 (amended): issuance performs no role validation: for every
identity, generate_token succeeds and the minted Claims' role is the
identity's role string copied verbatim (unknown values included).  The only
string-to-role conversion in the source, UserRole::from, is not called at
issuance and silently coerces unknown values to the least-privileged
Student rather than rejecting them. -/
theorem C7_amended (cfg : JwtConfig) (now : Nat) (u : User) :
    generate_token cfg now u =
      Except.ok (TokenStr.jwt (mintClaims cfg now u.id u.username u.role) cfg.secret) ∧
    (mintClaims cfg now u.id u.username u.role).role = u.role ∧
    UserRole.fromString "superuser" = UserRole.Student :=
  ⟨rfl, rfl, by decide⟩

/-- Claim C8, counterexample: with configured lifetime 0 minutes, the
Claims minted at time 5 have exp = iat = 5, violating expires_at >
issued_at; the claim quantifies over every configured lifetime value. -/
theorem C8_counterexample :
    generate_token cfg0 5 uEx =
      Except.ok (TokenStr.jwt
        { sub := "u", username := "n", role := "student", exp := 5, iat := 5 } "s") ∧
    (mintClaims cfg0 5 uEx.id uEx.username uEx.role).exp =
      (mintClaims cfg0 5 uEx.id uEx.username uEx.role).iat :=
  ⟨rfl, rfl⟩

/-- Claim C8 (amended): every Claims value minted by issue or refresh has
issued_at = now and expires_at = now + 60 * lifetime (lifetime in minutes),
hence expires_at > issued_at whenever the configured lifetime is at least
one minute (at lifetime 0 the two coincide). -/
theorem C8_amended (cfg : JwtConfig) (now : Nat) (u : User) (c : Claims) (k : String) :
    (mintClaims cfg now u.id u.username u.role).iat = now ∧
    (mintClaims cfg now u.id u.username u.role).exp = now + 60 * cfg.expiration ∧
    (1 ≤ cfg.expiration →
      (mintClaims cfg now u.id u.username u.role).iat <
        (mintClaims cfg now u.id u.username u.role).exp) ∧
    generate_token cfg now u =
      Except.ok (TokenStr.jwt (mintClaims cfg now u.id u.username u.role) cfg.secret) ∧
    (∀ t', refresh_token cfg now (TokenStr.jwt c k) = Except.ok t' →
      t' = TokenStr.jwt (mintClaims cfg now c.sub c.username c.role) cfg.secret) := by
  refine ⟨rfl, rfl, ?_, rfl, ?_⟩
  · intro hL
    simp only [mintClaims]
    omega
  · intro t' hok
    exact refresh_ok_shape cfg now c k t' hok

/-- Witness for C8_amended: under cfgEx (lifetime 1 minute) the minted
claims satisfy iat < exp, and a successful refresh at time 100 mints the
claims with iat = 100 and exp = 160. -/
theorem C8_witness :
    (mintClaims cfgEx 7 uEx.id uEx.username uEx.role).iat <
      (mintClaims cfgEx 7 uEx.id uEx.username uEx.role).exp ∧
    TokenStr.jwt
        { sub := "u", username := "n", role := "student", exp := 160, iat := 100 } "s" =
      TokenStr.jwt (mintClaims cfgEx 100 claimsEx.sub claimsEx.username claimsEx.role)
        cfgEx.secret :=
  ⟨(C8_amended cfgEx 7 uEx claimsEx "s").2.2.1 (by decide),
   (C8_amended cfgEx 100 uEx claimsEx "s").2.2.2.2 _ rfl⟩

/-- Claim C10: extract_token_from_header strips every leading repetition of
the Bearer-space pattern, not just one, before trimming whitespace: for any
number n ≥ 1 of leading repetitions followed by a token not starting with
the pattern, the extraction returns that token trimmed; in particular the
header Bearer Bearer tok extracts tok rather than Bearer tok. -/
theorem C10_strips_all_reps (n : Nat) (t : List Char)
    (hn : 1 ≤ n) (ht : ¬ bearerL.isPrefixOf t = true) :
    extract_token_from_header (repList bearerL n ++ t) = some (trimList t) ∧
    extract_token_from_header ("Bearer Bearer tok".toList) = some ("tok".toList) ∧
    extract_token_from_header ("Bearer Bearer tok".toList) ≠
      some ("Bearer tok".toList) :=
  ⟨extract_token_repList n t hn ht, by decide, by decide⟩

/-- Witness for C10_strips_all_reps with two repetitions of the pattern and
the token tok. -/
theorem C10_witness :
    extract_token_from_header (repList bearerL 2 ++ "tok".toList) =
      some (trimList ("tok".toList)) :=
  (C10_strips_all_reps 2 "tok".toList (by decide) (by decide)).1
